import Mathlib

/-!
A shallow embedding of `src/services/store/audit_logger.py`: the
`AuditEvent` record, its serialization `to_dict`, and the
`AuditMiddleware.dispatch` request interceptor.  Python dicts are
modelled as insertion-ordered association lists with `dict.update`
semantics; the nondeterministic environment reads (`uuid4()` and
`datetime.utcnow().isoformat()`) are explicit parameters; the observable
behaviour of `dispatch` is a trace of events: the audit-log write
(`emit`), the returned response, or the re-raised exception, in order.
-/

namespace Audit

/-- JSON-like leaf values stored in an event's `details` mapping:
Python `None`, `str`, `int` and `bool` as they occur in the source. -/
inductive Value where
  | vNull : Value
  | vStr : String → Value
  | vInt : Nat → Value
  | vBool : Bool → Value
deriving DecidableEq

/-- Top-level values of the serialized record from `to_dict`: a leaf, or
the nested `details` mapping (embedded as an object, not flattened). -/
inductive TopValue where
  | prim : Value → TopValue
  | obj : List (String × Value) → TopValue
deriving DecidableEq

/-- Python `d[k]` as an optional lookup on an insertion-ordered dict. -/
def dictGet (d : List (String × Value)) (k : String) : Option Value :=
  (d.find? (fun p => p.fst == k)).map Prod.snd

/-- Python `d[k] = v`: overwrite in place when the key exists, append
otherwise (insertion order preserved). -/
def dictSet (d : List (String × Value)) (k : String) (v : Value) :
    List (String × Value) :=
  if d.any (fun p => p.fst == k) then
    d.map (fun p => if p.fst == k then (k, v) else p)
  else d ++ [(k, v)]

/-- Python `d.update(new)`: set every key of `new` in order. -/
def dictUpdate (d new : List (String × Value)) : List (String × Value) :=
  new.foldl (fun acc p => dictSet acc p.fst p.snd) d

/-- Lookup on the serialized (top-level) record. -/
def recGet (d : List (String × TopValue)) (k : String) : Option TopValue :=
  (d.find? (fun p => p.fst == k)).map Prod.snd

/-- One audited action, mirroring the attributes set in
`AuditEvent.__init__` (audit_logger.py lines 40-52). -/
structure AuditEvent where
  id : String
  timestamp : String
  user_id : Option String
  user_role : Option String
  action : String
  resource : String
  resource_id : Option String
  outcome : String
  source_ip : String
  user_agent : String
  session_id : Option String
  details : List (String × Value)
  phi_accessed : Bool
deriving DecidableEq

instance : Inhabited AuditEvent :=
  ⟨{ id := "", timestamp := "", user_id := none, user_role := none,
     action := "", resource := "", resource_id := none, outcome := "",
     source_ip := "", user_agent := "", session_id := none, details := [],
     phi_accessed := false }⟩

/-- `AuditEvent.__init__`.  The `uuid` and `now` parameters are the
values read from the environment (`str(uuid4())` and
`datetime.utcnow().isoformat()`) at construction time; `details.getD []`
models `details or {}`.  Python default arguments are supplied
explicitly at each call site. -/
def AuditEvent.make (uuid now action resource outcome : String)
    (user_id user_role resource_id : Option String)
    (source_ip user_agent : String) (session_id : Option String)
    (details : Option (List (String × Value))) (phi_accessed : Bool) :
    AuditEvent :=
  { id := uuid, timestamp := now, user_id := user_id, user_role := user_role,
    action := action, resource := resource, resource_id := resource_id,
    outcome := outcome, source_ip := source_ip, user_agent := user_agent,
    session_id := session_id, details := details.getD [],
    phi_accessed := phi_accessed }

/-- Python `None`-or-`str` attributes serialize to JSON null or string. -/
def optStr : Option String → Value
  | none => Value.vNull
  | some s => Value.vStr s

/-- `AuditEvent.to_dict` (audit_logger.py lines 54-69): the flat record,
key for key and in source order, with `details` nested. -/
def AuditEvent.to_dict (e : AuditEvent) : List (String × TopValue) :=
  [ ("id", TopValue.prim (Value.vStr e.id)),
    ("timestamp", TopValue.prim (Value.vStr e.timestamp)),
    ("user_id", TopValue.prim (optStr e.user_id)),
    ("user_role", TopValue.prim (optStr e.user_role)),
    ("action", TopValue.prim (Value.vStr e.action)),
    ("resource", TopValue.prim (Value.vStr e.resource)),
    ("resource_id", TopValue.prim (optStr e.resource_id)),
    ("outcome", TopValue.prim (Value.vStr e.outcome)),
    ("source_ip", TopValue.prim (Value.vStr e.source_ip)),
    ("user_agent", TopValue.prim (Value.vStr e.user_agent)),
    ("session_id", TopValue.prim (optStr e.session_id)),
    ("details", TopValue.obj e.details),
    ("phi_accessed", TopValue.prim (Value.vBool e.phi_accessed)) ]

/-- Transport-level client peer, `request.client` (may be absent). -/
structure Client where
  host : String
deriving DecidableEq

/-- The parts of `request.url` the middleware reads.  `query` is the raw
query string, `""` when the request has none (Python falsiness). -/
structure URL where
  path : String
  query : String
deriving DecidableEq

/-- The parts of the inbound HTTP request the middleware reads.  Header
names are stored lowercased, as Starlette normalizes them. -/
structure Request where
  method : String
  url : URL
  headers : List (String × String)
  client : Option Client
deriving DecidableEq

/-- `request.headers.get(k, dflt)`: first matching header, else the
default. -/
def headersGet (r : Request) (k dflt : String) : String :=
  match (r.headers.find? (fun p => p.fst == k)).map Prod.snd with
  | some v => v
  | none => dflt

/-- The downstream handler's response; only `status_code` is read by the
middleware, `body` stands for everything else it must not touch. -/
structure Response where
  status_code : Nat
  body : String
deriving DecidableEq

/-- A Python exception as the middleware observes it: `type(e).__name__`
and `str(e)` (the latter may be the empty string, e.g. `ValueError()`). -/
structure Exc where
  excType : String
  excMsg : String
deriving DecidableEq

/-- Result of `await call_next(request)`: a response, or a raised
exception. -/
inductive HandlerResult where
  | ok : Response → HandlerResult
  | err : Exc → HandlerResult
deriving DecidableEq

/-- Observable actions of one `dispatch` invocation, in program order:
an audit-log write (`audit_event.log()`), the response returned to the
caller, or the exception re-raised to the caller. -/
inductive Obs where
  | emit : AuditEvent → Obs
  | response : Response → Obs
  | raised : Exc → Obs
deriving DecidableEq

/-- The `AuditEvent` built at the top of `dispatch` (audit_logger.py
lines 79-95): source IP from the forwarded-for header, else the real-ip
header, else the client peer, else "unknown"; user agent from its
header; action "api.request"; resource = URL path; details seeded with
method, path and query (query is `None` when the raw query string is
empty, by Python falsiness). -/
def baseEvent (uuid now : String) (request : Request) : AuditEvent :=
  AuditEvent.make uuid now "api.request" request.url.path
    "success" none none none
    (headersGet request "x-forwarded-for"
      (headersGet request "x-real-ip"
        (match request.client with
          | some c => c.host
          | none => "unknown")))
    (headersGet request "user-agent" "unknown") none
    (some [ ("method", Value.vStr request.method),
            ("path", Value.vStr request.url.path),
            ("query", if request.url.query = "" then Value.vNull
                      else Value.vStr request.url.query) ]) false

/-- The event as mutated on the success path (audit_logger.py lines
102-106): outcome classified by status code, details updated with the
status code and the never-measured `response_time_ms = None`. -/
def successEvent (uuid now : String) (request : Request) (r : Response) :
    AuditEvent :=
  { baseEvent uuid now request with
    outcome := if r.status_code < 400 then "success" else "failure",
    details := dictUpdate (baseEvent uuid now request).details
      [ ("status_code", Value.vInt r.status_code),
        ("response_time_ms", Value.vNull) ] }

/-- The event as mutated on the exception path (audit_logger.py lines
115-119): outcome "failure", details updated with `str(e)` and
`type(e).__name__`. -/
def failureEvent (uuid now : String) (request : Request) (e : Exc) :
    AuditEvent :=
  { baseEvent uuid now request with
    outcome := "failure",
    details := dictUpdate (baseEvent uuid now request).details
      [ ("error", Value.vStr e.excMsg),
        ("exception_type", Value.vStr e.excType) ] }

/-- `AuditMiddleware.dispatch` (audit_logger.py lines 77-121), as the
trace of its observable actions.  `uuid` and `now` are the environment
reads made by the `AuditEvent` constructor.  On handler return the
mutated event is logged and then the handler's response is returned
unmodified; on a handler exception the mutated event is logged and then
the original exception is re-raised. -/
def AuditMiddleware.dispatch (uuid now : String)
    (call_next : Request → HandlerResult) (request : Request) : List Obs :=
  match call_next request with
  | HandlerResult.ok response =>
      [Obs.emit (successEvent uuid now request response),
       Obs.response response]
  | HandlerResult.err e =>
      [Obs.emit (failureEvent uuid now request e),
       Obs.raised e]

/-- The audit records written during a trace, in order. -/
def emittedEvents (t : List Obs) : List AuditEvent :=
  t.filterMap (fun o => match o with
    | Obs.emit e => some e
    | _ => none)

/-- The source-IP precedence exactly as the spec states it (§4.2 step 1):
the forwarded-for header if present, else the real-ip header if present,
else the transport-level peer address if present, else "unknown". -/
def specSourceIp (r : Request) : String :=
  match (r.headers.find? (fun p => p.fst == "x-forwarded-for")).map Prod.snd with
  | some v => v
  | none =>
    match (r.headers.find? (fun p => p.fst == "x-real-ip")).map Prod.snd with
    | some v => v
    | none =>
      match r.client with
      | some c => c.host
      | none => "unknown"

/-! Concrete fixtures used by witnesses and the counterexample. -/

/-- A plain request: no special headers, no query string. -/
def reqPlain : Request :=
  { method := "GET", url := { path := "/api/products", query := "" },
    headers := [("user-agent", "curl/8.4.0")],
    client := some { host := "10.0.0.1" } }

/-- A request carrying an x-forwarded-for header and a query string,
behind a transport peer. -/
def reqFwd : Request :=
  { method := "GET", url := { path := "/api/orders", query := "page=2" },
    headers := [("x-forwarded-for", "203.0.113.5"),
                ("user-agent", "curl/8.4.0")],
    client := some { host := "10.0.0.1" } }

/-- A downstream handler answering 200. -/
def handlerOk200 : Request → HandlerResult :=
  fun _ => HandlerResult.ok { status_code := 200, body := "products" }

/-- A downstream handler answering 404. -/
def handlerOk404 : Request → HandlerResult :=
  fun _ => HandlerResult.ok { status_code := 404, body := "not found" }

/-- A downstream handler raising `RuntimeError("boom")`. -/
def handlerBoom : Request → HandlerResult :=
  fun _ => HandlerResult.err { excType := "RuntimeError", excMsg := "boom" }

/-- A downstream handler raising `ValueError()`, whose `str(e)` is the
empty string. -/
def handlerEmptyMsg : Request → HandlerResult :=
  fun _ => HandlerResult.err { excType := "ValueError", excMsg := "" }

/-! Equational helper lemmas about `dispatch`. -/

/-- On the success path the trace is the emitted success event followed
by the handler's response. -/
theorem dispatch_eq_ok (uuid now : String)
    (call_next : Request → HandlerResult) (request : Request)
    (r : Response) (h : call_next request = HandlerResult.ok r) :
    AuditMiddleware.dispatch uuid now call_next request
      = [Obs.emit (successEvent uuid now request r), Obs.response r] := by
  unfold AuditMiddleware.dispatch
  rw [h]

/-- On the exception path the trace is the emitted failure event
followed by the re-raised exception. -/
theorem dispatch_eq_err (uuid now : String)
    (call_next : Request → HandlerResult) (request : Request)
    (e : Exc) (h : call_next request = HandlerResult.err e) :
    AuditMiddleware.dispatch uuid now call_next request
      = [Obs.emit (failureEvent uuid now request e), Obs.raised e] := by
  unfold AuditMiddleware.dispatch
  rw [h]

/-- The success-path trace logs exactly the success event. -/
theorem emitted_eq_ok (uuid now : String)
    (call_next : Request → HandlerResult) (request : Request)
    (r : Response) (h : call_next request = HandlerResult.ok r) :
    emittedEvents (AuditMiddleware.dispatch uuid now call_next request)
      = [successEvent uuid now request r] := by
  rw [dispatch_eq_ok uuid now call_next request r h]
  rfl

/-- The exception-path trace logs exactly the failure event. -/
theorem emitted_eq_err (uuid now : String)
    (call_next : Request → HandlerResult) (request : Request)
    (e : Exc) (h : call_next request = HandlerResult.err e) :
    emittedEvents (AuditMiddleware.dispatch uuid now call_next request)
      = [failureEvent uuid now request e] := by
  rw [dispatch_eq_err uuid now call_next request e h]
  rfl

/-- C1: for every request handled by `AuditMiddleware.dispatch`, exactly
one audit record is emitted, and the emission happens before control
leaves the middleware: the trace is the log write followed by the
returned response on the success path, or the log write followed by the
re-raised exception on the failure path. -/
theorem C1_exactly_one_emit_before_exit (uuid now : String)
    (call_next : Request → HandlerResult) (request : Request) :
    ∃ ev : AuditEvent,
      (∃ r, call_next request = HandlerResult.ok r ∧
        AuditMiddleware.dispatch uuid now call_next request
          = [Obs.emit ev, Obs.response r]) ∨
      (∃ e, call_next request = HandlerResult.err e ∧
        AuditMiddleware.dispatch uuid now call_next request
          = [Obs.emit ev, Obs.raised e]) := by
  cases h : call_next request with
  | ok r =>
      exact ⟨successEvent uuid now request r,
        Or.inl ⟨r, rfl, dispatch_eq_ok uuid now call_next request r h⟩⟩
  | err e =>
      exact ⟨failureEvent uuid now request e,
        Or.inr ⟨e, rfl, dispatch_eq_err uuid now call_next request e h⟩⟩

/-- C2: when the downstream handler returns a response, the emitted
record's outcome equals "success" if the status code is strictly below
400, and equals "failure" if it is 400 or greater. -/
theorem C2_outcome_by_status (uuid now : String)
    (call_next : Request → HandlerResult) (request : Request)
    (r : Response) (ev : AuditEvent)
    (hok : call_next request = HandlerResult.ok r)
    (hmem : ev ∈ emittedEvents
      (AuditMiddleware.dispatch uuid now call_next request)) :
    (r.status_code < 400 → ev.outcome = "success") ∧
    (400 ≤ r.status_code → ev.outcome = "failure") := by
  rw [emitted_eq_ok uuid now call_next request r hok,
    List.mem_singleton] at hmem
  subst hmem
  constructor
  · intro hlt
    show (if r.status_code < 400 then "success" else "failure") = "success"
    rw [if_pos hlt]
  · intro hge
    show (if r.status_code < 400 then "success" else "failure") = "failure"
    rw [if_neg (by omega)]

/-- Witness for C2: a concrete 200 response is classified "success". -/
theorem C2_outcome_by_status_witness :
    ((emittedEvents
      (AuditMiddleware.dispatch "u0" "t0" handlerOk200 reqPlain)).headI).outcome
      = "success" :=
  (C2_outcome_by_status "u0" "t0" handlerOk200 reqPlain
    { status_code := 200, body := "products" }
    ((emittedEvents
      (AuditMiddleware.dispatch "u0" "t0" handlerOk200 reqPlain)).headI)
    rfl (by decide)).1 (by decide)

/-- C3 (amended): when the downstream handler raises, the middleware
sets the event's outcome to "failure", merges into details the
exception's type name (non-empty whenever the type name itself is, as
Python guarantees) and the exception's message — which may be the empty
string — emits the event, and re-raises the original exception
unchanged. -/
theorem C3_exception_path (uuid now : String)
    (call_next : Request → HandlerResult) (request : Request)
    (e : Exc) (herr : call_next request = HandlerResult.err e)
    (htype : e.excType ≠ "") :
    ∃ ev, AuditMiddleware.dispatch uuid now call_next request
        = [Obs.emit ev, Obs.raised e] ∧
      ev.outcome = "failure" ∧
      dictGet ev.details "error" = some (Value.vStr e.excMsg) ∧
      dictGet ev.details "exception_type" = some (Value.vStr e.excType) ∧
      e.excType ≠ "" :=
  ⟨failureEvent uuid now request e,
    dispatch_eq_err uuid now call_next request e herr, rfl, rfl, rfl, htype⟩

/-- Witness for C3 at a concrete `RuntimeError("boom")`: the same
exception is re-raised last and the merged message is "boom". -/
theorem C3_exception_path_witness :
    (AuditMiddleware.dispatch "u3" "t3" handlerBoom reqPlain).getLast?
      = some (Obs.raised { excType := "RuntimeError", excMsg := "boom" }) ∧
    dictGet ((emittedEvents
      (AuditMiddleware.dispatch "u3" "t3" handlerBoom reqPlain)).headI).details
      "error" = some (Value.vStr "boom") := by
  obtain ⟨ev, htrace, hout, hmsg, htyp, hne⟩ :=
    C3_exception_path "u3" "t3" handlerBoom reqPlain
      { excType := "RuntimeError", excMsg := "boom" } rfl (by decide)
  refine ⟨?_, ?_⟩
  · rw [htrace]
    rfl
  · have hh : (emittedEvents
        (AuditMiddleware.dispatch "u3" "t3" handlerBoom reqPlain)).headI
        = ev := by
      rw [htrace]
      rfl
    rw [hh]
    exact hmsg

/-- Counterexample to C3 as stated: for `ValueError()` the message
merged into details is the empty string (`str(e)` of an argument-less
exception is empty), so the claimed non-emptiness of the exception
message fails on the code. -/
theorem C3_counterexample :
    ¬ ∀ s : String,
      (emittedEvents
        (AuditMiddleware.dispatch "u3c" "t3c" handlerEmptyMsg reqPlain)).map
        (fun ev => dictGet ev.details "error") = [some (Value.vStr s)] →
      s ≠ "" := by
  intro hall
  exact hall "" rfl rfl

/-- C4: the source_ip of every emitted record follows the strict
precedence the spec states: forwarded-for header, else real-ip header,
else transport peer address, else "unknown" (see `specSourceIp`). -/
theorem C4_source_ip_precedence (uuid now : String)
    (call_next : Request → HandlerResult) (request : Request)
    (ev : AuditEvent)
    (hmem : ev ∈ emittedEvents
      (AuditMiddleware.dispatch uuid now call_next request)) :
    ev.source_ip = specSourceIp request := by
  cases h : call_next request with
  | ok r =>
      rw [emitted_eq_ok uuid now call_next request r h,
        List.mem_singleton] at hmem
      subst hmem
      rfl
  | err e =>
      rw [emitted_eq_err uuid now call_next request e h,
        List.mem_singleton] at hmem
      subst hmem
      rfl

/-- Witness for C4: a forwarded-for header wins over the transport peer
address. -/
theorem C4_source_ip_precedence_witness :
    ((emittedEvents
      (AuditMiddleware.dispatch "u4" "t4" handlerOk200 reqFwd)).headI).source_ip
      = "203.0.113.5" :=
  (C4_source_ip_precedence "u4" "t4" handlerOk200 reqFwd
    ((emittedEvents
      (AuditMiddleware.dispatch "u4" "t4" handlerOk200 reqFwd)).headI)
    (by decide)).trans (by decide)

/-- C5: every emitted record's details carry the request's method and
path verbatim, and its query entry is null when the raw query string is
empty and equals the raw query string otherwise. -/
theorem C5_request_metadata (uuid now : String)
    (call_next : Request → HandlerResult) (request : Request)
    (ev : AuditEvent)
    (hmem : ev ∈ emittedEvents
      (AuditMiddleware.dispatch uuid now call_next request)) :
    dictGet ev.details "method" = some (Value.vStr request.method) ∧
    dictGet ev.details "path" = some (Value.vStr request.url.path) ∧
    (request.url.query = "" →
      dictGet ev.details "query" = some Value.vNull) ∧
    (request.url.query ≠ "" →
      dictGet ev.details "query" = some (Value.vStr request.url.query)) := by
  cases h : call_next request with
  | ok r =>
      rw [emitted_eq_ok uuid now call_next request r h,
        List.mem_singleton] at hmem
      subst hmem
      refine ⟨rfl, rfl, ?_, ?_⟩
      · intro hq
        have hb : dictGet (successEvent uuid now request r).details "query"
            = some (if request.url.query = "" then Value.vNull
                    else Value.vStr request.url.query) := rfl
        rw [hb, if_pos hq]
      · intro hq
        have hb : dictGet (successEvent uuid now request r).details "query"
            = some (if request.url.query = "" then Value.vNull
                    else Value.vStr request.url.query) := rfl
        rw [hb, if_neg hq]
  | err e =>
      rw [emitted_eq_err uuid now call_next request e h,
        List.mem_singleton] at hmem
      subst hmem
      refine ⟨rfl, rfl, ?_, ?_⟩
      · intro hq
        have hb : dictGet (failureEvent uuid now request e).details "query"
            = some (if request.url.query = "" then Value.vNull
                    else Value.vStr request.url.query) := rfl
        rw [hb, if_pos hq]
      · intro hq
        have hb : dictGet (failureEvent uuid now request e).details "query"
            = some (if request.url.query = "" then Value.vNull
                    else Value.vStr request.url.query) := rfl
        rw [hb, if_neg hq]

/-- Witness for C5 at a concrete request with a query string. -/
theorem C5_request_metadata_witness :
    dictGet ((emittedEvents
      (AuditMiddleware.dispatch "u5" "t5" handlerOk200 reqFwd)).headI).details
      "method" = some (Value.vStr "GET") ∧
    dictGet ((emittedEvents
      (AuditMiddleware.dispatch "u5" "t5" handlerOk200 reqFwd)).headI).details
      "query" = some (Value.vStr "page=2") := by
  have h := C5_request_metadata "u5" "t5" handlerOk200 reqFwd
    ((emittedEvents
      (AuditMiddleware.dispatch "u5" "t5" handlerOk200 reqFwd)).headI)
    (by decide)
  exact ⟨h.1, h.2.2.2 (by decide)⟩

/-- C6: on the success path the emitted record's details carry the
numeric status code of the response and a null response_time_ms (latency
is never measured). -/
theorem C6_response_details (uuid now : String)
    (call_next : Request → HandlerResult) (request : Request)
    (r : Response) (ev : AuditEvent)
    (hok : call_next request = HandlerResult.ok r)
    (hmem : ev ∈ emittedEvents
      (AuditMiddleware.dispatch uuid now call_next request)) :
    dictGet ev.details "status_code" = some (Value.vInt r.status_code) ∧
    dictGet ev.details "response_time_ms" = some Value.vNull := by
  rw [emitted_eq_ok uuid now call_next request r hok,
    List.mem_singleton] at hmem
  subst hmem
  exact ⟨rfl, rfl⟩

/-- Witness for C6 at a concrete 404 response. -/
theorem C6_response_details_witness :
    dictGet ((emittedEvents
      (AuditMiddleware.dispatch "u6" "t6" handlerOk404 reqPlain)).headI).details
      "status_code" = some (Value.vInt 404) ∧
    dictGet ((emittedEvents
      (AuditMiddleware.dispatch "u6" "t6" handlerOk404 reqPlain)).headI).details
      "response_time_ms" = some Value.vNull :=
  C6_response_details "u6" "t6" handlerOk404 reqPlain
    { status_code := 404, body := "not found" }
    ((emittedEvents
      (AuditMiddleware.dispatch "u6" "t6" handlerOk404 reqPlain)).headI)
    rfl (by decide)

/-- C7: when the downstream handler returns a response, the middleware
returns that very response object to its caller, unmodified. -/
theorem C7_response_unmodified (uuid now : String)
    (call_next : Request → HandlerResult) (request : Request)
    (r : Response) (hok : call_next request = HandlerResult.ok r) :
    ∃ ev, AuditMiddleware.dispatch uuid now call_next request
      = [Obs.emit ev, Obs.response r] :=
  ⟨successEvent uuid now request r,
    dispatch_eq_ok uuid now call_next request r hok⟩

/-- Witness for C7: at a concrete request the trace ends with exactly
the handler's response. -/
theorem C7_response_unmodified_witness :
    (AuditMiddleware.dispatch "u0" "t7" handlerOk200 reqPlain).getLast?
      = some (Obs.response { status_code := 200, body := "products" }) := by
  obtain ⟨ev, h⟩ :=
    C7_response_unmodified "u0" "t7" handlerOk200 reqPlain
      { status_code := 200, body := "products" } rfl
  rw [h]
  rfl

/-- C10: every record emitted by the middleware has user_id, user_role,
session_id and resource_id null and phi_accessed false — the middleware
never infers actor identity, session, or PHI access from the request. -/
theorem C10_no_identity_inferred (uuid now : String)
    (call_next : Request → HandlerResult) (request : Request)
    (ev : AuditEvent)
    (hmem : ev ∈ emittedEvents
      (AuditMiddleware.dispatch uuid now call_next request)) :
    ev.user_id = none ∧ ev.user_role = none ∧ ev.session_id = none ∧
    ev.resource_id = none ∧ ev.phi_accessed = false := by
  cases h : call_next request with
  | ok r =>
      rw [emitted_eq_ok uuid now call_next request r h,
        List.mem_singleton] at hmem
      subst hmem
      exact ⟨rfl, rfl, rfl, rfl, rfl⟩
  | err e =>
      rw [emitted_eq_err uuid now call_next request e h,
        List.mem_singleton] at hmem
      subst hmem
      exact ⟨rfl, rfl, rfl, rfl, rfl⟩

/-- Witness for C10 at a concrete erroring request. -/
theorem C10_no_identity_inferred_witness :
    ((emittedEvents
      (AuditMiddleware.dispatch "u1" "t1" handlerBoom reqFwd)).headI).user_id
        = none ∧
    ((emittedEvents
      (AuditMiddleware.dispatch "u1" "t1" handlerBoom reqFwd)).headI).user_role
        = none ∧
    ((emittedEvents
      (AuditMiddleware.dispatch "u1" "t1" handlerBoom reqFwd)).headI).session_id
        = none ∧
    ((emittedEvents
      (AuditMiddleware.dispatch "u1" "t1" handlerBoom reqFwd)).headI).resource_id
        = none ∧
    ((emittedEvents
      (AuditMiddleware.dispatch "u1" "t1" handlerBoom reqFwd)).headI).phi_accessed
        = false :=
  C10_no_identity_inferred "u1" "t1" handlerBoom reqFwd
    ((emittedEvents
      (AuditMiddleware.dispatch "u1" "t1" handlerBoom reqFwd)).headI)
    (by decide)

/-- C8: the serialization `to_dict` is a flat record with exactly the
thirteen documented keys, in source order, each mapped to the attribute
of the same name, with details embedded as a nested mapping. -/
theorem C8_to_dict_shape (e : AuditEvent) :
    (e.to_dict).map Prod.fst
      = ["id", "timestamp", "user_id", "user_role", "action", "resource",
         "resource_id", "outcome", "source_ip", "user_agent",
         "session_id", "details", "phi_accessed"] ∧
    recGet e.to_dict "id" = some (TopValue.prim (Value.vStr e.id)) ∧
    recGet e.to_dict "timestamp"
      = some (TopValue.prim (Value.vStr e.timestamp)) ∧
    recGet e.to_dict "user_id" = some (TopValue.prim (optStr e.user_id)) ∧
    recGet e.to_dict "user_role"
      = some (TopValue.prim (optStr e.user_role)) ∧
    recGet e.to_dict "action" = some (TopValue.prim (Value.vStr e.action)) ∧
    recGet e.to_dict "resource"
      = some (TopValue.prim (Value.vStr e.resource)) ∧
    recGet e.to_dict "resource_id"
      = some (TopValue.prim (optStr e.resource_id)) ∧
    recGet e.to_dict "outcome"
      = some (TopValue.prim (Value.vStr e.outcome)) ∧
    recGet e.to_dict "source_ip"
      = some (TopValue.prim (Value.vStr e.source_ip)) ∧
    recGet e.to_dict "user_agent"
      = some (TopValue.prim (Value.vStr e.user_agent)) ∧
    recGet e.to_dict "session_id"
      = some (TopValue.prim (optStr e.session_id)) ∧
    recGet e.to_dict "details" = some (TopValue.obj e.details) ∧
    recGet e.to_dict "phi_accessed"
      = some (TopValue.prim (Value.vBool e.phi_accessed)) :=
  ⟨rfl, rfl, rfl, rfl, rfl, rfl, rfl, rfl, rfl, rfl, rfl, rfl, rfl, rfl⟩

/-- C9: serialization is idempotent — `to_dict` of a constructed event
yields identical output on repeated calls, and the id and timestamp it
reports are exactly the values captured at construction, never
recomputed. -/
theorem C9_to_dict_idempotent (uuid now action resource outcome : String)
    (user_id user_role resource_id : Option String)
    (source_ip user_agent : String) (session_id : Option String)
    (details : Option (List (String × Value))) (phi_accessed : Bool) :
    (AuditEvent.make uuid now action resource outcome user_id user_role
        resource_id source_ip user_agent session_id details
        phi_accessed).to_dict
      = (AuditEvent.make uuid now action resource outcome user_id user_role
        resource_id source_ip user_agent session_id details
        phi_accessed).to_dict ∧
    recGet (AuditEvent.make uuid now action resource outcome user_id
        user_role resource_id source_ip user_agent session_id details
        phi_accessed).to_dict "id"
      = some (TopValue.prim (Value.vStr uuid)) ∧
    recGet (AuditEvent.make uuid now action resource outcome user_id
        user_role resource_id source_ip user_agent session_id details
        phi_accessed).to_dict "timestamp"
      = some (TopValue.prim (Value.vStr now)) :=
  ⟨rfl, rfl, rfl⟩

end Audit
